import Mathlib

/-!
# Verification of the NYC congestion-pricing audit pipeline core

Shallow embedding of `src/pipeline.py` (anomaly classifier
`detect_ghost_trips`, zone-compliance analyzer `analyze_congestion_zone`,
and the driver `main`), followed by theorems settling the frozen claims.

Modelling conventions:
* A pandas float column cell is modelled by `Fl`: either `nan`
  (NaN/NaT/null), positive infinity `inf` (which arises as
  `trip_distance / 0` upstream), or a finite rational `fval q`.
  IEEE comparisons against a constant are mirrored exactly: every
  comparison with NaN is false, `inf > c` is true, `inf < c` and
  `inf == 0` are false.
* Integer location columns are `Option Int` (`none` = null); pandas
  `isin` is false on null.
* Timestamps are modelled as rational time coordinates inside `Fl`
  (`nan` = NaT); the cutoff literal `'2025-01-05'` is the constant
  `cutoffDate` on the same axis.
* A DataFrame is a `List TripRecord` (ordered rows).  Boolean-mask
  filtering `df[mask]` keeps order, hence is `List.filter`.
* `Series.nlargest(3)` (with its default `keep='first'`) on a
  `groupby('pickup_loc').size()` result: pandas `groupby` sorts keys
  ascending and drops null keys; `nlargest` is a stable selection of the
  three largest values, keeping first occurrences on ties.  We realize
  the stable descending sort with `List.insertionSort` (a stable sort)
  and take the first three.
* The `ZeroDivisionError` raised by the `len(ghost_df) / len(df)`
  progress print in `detect_ghost_trips` when `df` is empty is modelled
  with `Except.error`.
-/

/-- One cell of a pandas float column: NaN (also NaT / missing), +∞,
or a finite value. -/
inductive Fl where
  | nan : Fl
  | inf : Fl
  | fval : ℚ → Fl
deriving DecidableEq

namespace Fl

/-- `x > c` for a float cell `x` and finite constant `c`
(NaN comparisons are false, `inf > c` is true). -/
def gtc : Fl → ℚ → Bool
  | nan, _ => false
  | inf, _ => true
  | fval q, c => decide (c < q)

/-- `x < c` (NaN comparisons are false, `inf < c` is false). -/
def ltc : Fl → ℚ → Bool
  | nan, _ => false
  | inf, _ => false
  | fval q, c => decide (q < c)

/-- `x == c` (NaN and `inf` are not equal to any finite constant). -/
def eqc : Fl → ℚ → Bool
  | nan, _ => false
  | inf, _ => false
  | fval q, c => decide (q = c)

/-- `x >= c` (NaT/NaN comparisons are false). -/
def gec : Fl → ℚ → Bool
  | nan, _ => false
  | inf, _ => true
  | fval q, c => decide (c ≤ q)

end Fl

/-- One row of the normalized trip table (the columns the analysis core
reads).  The three zone-flag columns do not exist before the analyzer
runs; this is modelled by `Option Bool` fields defaulting to `none`. -/
structure TripRecord where
  pickup_time : Fl
  pickup_loc : Option Int
  dropoff_loc : Option Int
  trip_distance : Fl
  fare : Fl
  congestion_surcharge : Fl
  trip_duration : Fl
  avg_speed : Fl
  pickup_in_zone : Option Bool := none
  dropoff_in_zone : Option Bool := none
  enters_zone : Option Bool := none
deriving DecidableEq

/-- `CONGESTION_ZONE_IDS` from `src/pipeline.py` lines 19–24,
verbatim. -/
def CONGESTION_ZONE_IDS : List Int :=
  [4, 12, 13, 24, 41, 42, 43, 45, 48, 50, 68, 74, 75, 79, 87, 88, 90, 100, 103,
   107, 113, 114, 116, 120, 125, 127, 128, 137, 140, 141, 142, 143, 144, 148, 151,
   152, 153, 158, 161, 162, 163, 164, 166, 170, 186, 194, 202, 209, 211, 224, 229,
   230, 231, 232, 233, 234, 236, 237, 238, 239, 243, 244, 246, 249, 261, 262, 263]

/-! ## Anomaly classifier (`detect_ghost_trips`) -/

/-- Rule 1, `df['avg_speed'] > 65`. -/
def mask_speed (r : TripRecord) : Bool := r.avg_speed.gtc 65

/-- Rule 2, `(df['trip_duration'] < 1) & (df['fare'] > 20)`. -/
def mask_teleport (r : TripRecord) : Bool :=
  r.trip_duration.ltc 1 && r.fare.gtc 20

/-- Rule 3, `(df['trip_distance'] == 0) & (df['fare'] > 0)`. -/
def mask_stationary (r : TripRecord) : Bool :=
  r.trip_distance.eqc 0 && r.fare.gtc 0

/-- `ghost_mask = mask_speed | mask_teleport | mask_stationary`. -/
def ghost_mask (r : TripRecord) : Bool :=
  mask_speed r || mask_teleport r || mask_stationary r

/-- `detect_ghost_trips` (`src/pipeline.py` lines 27–56).  Builds
`ghost_df = df[ghost_mask]` and `clean_df = df[~ghost_mask]`, then the
progress print evaluates `len(ghost_df) / len(df) * 100`, which raises
`ZeroDivisionError` when `df` is empty; otherwise the pair
`(clean_df, ghost_df)` is returned. -/
def detect_ghost_trips (df : List TripRecord) :
    Except String (List TripRecord × List TripRecord) :=
  if df.length = 0 then
    Except.error "ZeroDivisionError: division by zero"
  else
    Except.ok (df.filter fun r => !ghost_mask r, df.filter ghost_mask)

/-! ## Zone compliance analyzer (`analyze_congestion_zone`) -/

/-- `loc.isin(CONGESTION_ZONE_IDS)`; a null location is not in the
zone. -/
def inZone (loc : Option Int) : Bool :=
  match loc with
  | none => false
  | some v => CONGESTION_ZONE_IDS.contains v

/-- The three column assignments of `analyze_congestion_zone`
(lines 64–66): `pickup_in_zone`, `dropoff_in_zone`, and
`enters_zone = (~pickup_in_zone) & dropoff_in_zone`, on one row. -/
def setZoneFlags (r : TripRecord) : TripRecord :=
  let p := inZone r.pickup_loc
  let d := inZone r.dropoff_loc
  { r with pickup_in_zone := some p, dropoff_in_zone := some d,
           enters_zone := some (!p && d) }

/-- The input table after the three column assignments.  pandas performs
them in place on the table object passed in. -/
def zoneFlagged (df : List TripRecord) : List TripRecord :=
  df.map setZoneFlags

/-- The time coordinate of the cutoff literal `'2025-01-05'`. -/
def cutoffDate : ℚ := 20093

/-- `post_toll = df[df['pickup_time'] >= '2025-01-05']` (line 69). -/
def post_toll (df : List TripRecord) : List TripRecord :=
  (zoneFlagged df).filter fun r => r.pickup_time.gec cutoffDate

/-- `zone_entries = post_toll[post_toll['enters_zone']]` (line 70): the
qualifying set. -/
def zone_entries (df : List TripRecord) : List TripRecord :=
  (post_toll df).filter fun r => decide (r.enters_zone = some true)

/-- `compliant = zone_entries[zone_entries['congestion_surcharge'] > 0]`
(line 73). -/
def compliant (df : List TripRecord) : List TripRecord :=
  (zone_entries df).filter fun r => r.congestion_surcharge.gtc 0

/-- `non_compliant = zone_entries[zone_entries['congestion_surcharge'] == 0]`
(line 81). -/
def non_compliant (df : List TripRecord) : List TripRecord :=
  (zone_entries df).filter fun r => r.congestion_surcharge.eqc 0

/-- The population the spec's step 4 describes: qualifying records that
are not compliant (`congestion_surcharge` not `> 0`).  Modelled from the
spec's words, for comparison with `non_compliant` above. -/
def specLeakagePopulation (df : List TripRecord) : List TripRecord :=
  (zone_entries df).filter fun r => !r.congestion_surcharge.gtc 0

/-- Descending order on per-location counts (the sort key of
`nlargest`). -/
def countGE (a b : Int × Nat) : Prop := b.2 ≤ a.2

instance : DecidableRel countGE := fun a b =>
  inferInstanceAs (Decidable (b.2 ≤ a.2))

instance : IsTotal (Int × Nat) countGE :=
  ⟨by intro a b; unfold countGE; exact Nat.le_total b.2 a.2⟩

instance : IsTrans (Int × Nat) countGE :=
  ⟨by intro a b c h1 h2; unfold countGE at *; exact Nat.le_trans h2 h1⟩

/-- The distinct non-null pickup locations of a table, sorted ascending —
the index of `groupby('pickup_loc').size()` (pandas sorts group keys and
drops null keys). -/
def groupKeys (rs : List TripRecord) : List Int :=
  List.insertionSort (· ≤ ·) (rs.filterMap (fun r => r.pickup_loc)).dedup

/-- `groupby('pickup_loc').size()`: each distinct pickup location paired
with the number of rows having it, keys ascending. -/
def groupSizes (rs : List TripRecord) : List (Int × Nat) :=
  (groupKeys rs).map fun k =>
    (k, (rs.filterMap (fun r => r.pickup_loc)).count k)

/-- `Series.nlargest(3)` with the default `keep='first'`: stable sort by
descending value, take the first three entries. -/
def nlargest3 (l : List (Int × Nat)) : List (Int × Nat) :=
  (List.insertionSort countGE l).take 3

/-- `non_compliant.groupby('pickup_loc').size().nlargest(3)`
(line 83), produced only when `len(non_compliant) > 0`. -/
def top_leakage (df : List TripRecord) : List (Int × Nat) :=
  if 0 < (non_compliant df).length then nlargest3 (groupSizes (non_compliant df))
  else []

/-- What `analyze_congestion_zone` produces: the (in-place augmented)
table, the compliance rate when the qualifying set is non-empty, and the
leakage ranking. -/
structure ZoneAnalysis where
  table : List TripRecord
  compliance_rate : Option ℚ
  leakage : List (Int × Nat)
deriving DecidableEq

/-- `analyze_congestion_zone` (`src/pipeline.py` lines 59–88).  The
column assignments always happen; the compliance block runs only under
`len(zone_entries) > 0`, with
`compliance_rate = len(compliant) / len(zone_entries)`. -/
def analyze_congestion_zone (df : List TripRecord) : ZoneAnalysis :=
  if 0 < (zone_entries df).length then
    { table := zoneFlagged df
      compliance_rate :=
        some (((compliant df).length : ℚ) / ((zone_entries df).length : ℚ))
      leakage := top_leakage df }
  else
    { table := zoneFlagged df, compliance_rate := none, leakage := [] }

/-! ## Driver (`main`, lines 106–145) -/

/-- The driver's analysis phase on the loaded table: ghost detection,
then zone analysis, then persistence of `clean_df` and `ghost_df`.
Because the analyzer assigns columns in place on the very object it is
passed, the `clean_df` the driver persists is the analyzer's augmented
table; the state-passing model makes that explicit. -/
def pipeline_main (df : List TripRecord) :
    Except String (List TripRecord × List TripRecord) :=
  match detect_ghost_trips df with
  | Except.error e => Except.error e
  | Except.ok (clean_df, ghost_df) =>
      Except.ok ((analyze_congestion_zone clean_df).table, ghost_df)

/-! ## Concrete tables used to witness the theorems -/

/-- A trip record with the given average speed, duration, fare and
distance (the four classifier columns); location/time fields fixed to
benign values. -/
def mkRec (speed dur fare dist : ℚ) : TripRecord :=
  { pickup_time := Fl.fval 21000, pickup_loc := some 50, dropoff_loc := some 4,
    trip_distance := Fl.fval dist, fare := Fl.fval fare,
    congestion_surcharge := Fl.fval 0, trip_duration := Fl.fval dur,
    avg_speed := Fl.fval speed }

/-- The spec's end-to-end example table: one record per rule plus one
clean record. -/
def exTable : List TripRecord :=
  [mkRec 70 10 15 5, mkRec 30 0 25 1, mkRec 0 5 8 0, mkRec 20 15 30 5]

/-- Clean part of `exTable`. -/
def exClean : List TripRecord := [mkRec 20 15 30 5]

/-- Ghost part of `exTable`. -/
def exGhost : List TripRecord :=
  [mkRec 70 10 15 5, mkRec 30 0 25 1, mkRec 0 5 8 0]

/-- A qualifying record: post-cutoff pickup, pickup location outside the
zone, dropoff inside, with the given pickup location and surcharge. -/
def qRec (loc : Int) (sur : Fl) : TripRecord :=
  { pickup_time := Fl.fval 21000, pickup_loc := some loc, dropoff_loc := some 4,
    trip_distance := Fl.fval 1, fare := Fl.fval 10,
    congestion_surcharge := sur, trip_duration := Fl.fval 10,
    avg_speed := Fl.fval 6 }

/-- Five non-compliant qualifying records over four pickup locations
(location 10 twice). -/
def tbl7 : List TripRecord :=
  [qRec 10 (Fl.fval 0), qRec 10 (Fl.fval 0), qRec 20 (Fl.fval 0),
   qRec 30 (Fl.fval 0), qRec 40 (Fl.fval 0)]

/-- One compliant and one non-compliant qualifying record. -/
def tbl5 : List TripRecord := [qRec 10 (Fl.fval 3), qRec 20 (Fl.fval 0)]

/-- A single qualifying record with a negative congestion surcharge. -/
def tbl6 : List TripRecord := [qRec 10 (Fl.fval (-3))]

/-- A record whose pickup (100) and dropoff (4) are both in the zone. -/
def rec100_4 : TripRecord :=
  { pickup_time := Fl.fval 21000, pickup_loc := some 100, dropoff_loc := some 4,
    trip_distance := Fl.fval 1, fare := Fl.fval 10,
    congestion_surcharge := Fl.fval 0, trip_duration := Fl.fval 10,
    avg_speed := Fl.fval 6 }

/-! ## Helper lemmas -/

theorem detect_ghost_trips_eq_ok {df c g : List TripRecord} :
    detect_ghost_trips df = Except.ok (c, g) ↔
      df ≠ [] ∧ c = df.filter (fun r => !ghost_mask r) ∧ g = df.filter ghost_mask := by
  unfold detect_ghost_trips
  by_cases h : df.length = 0
  · rw [if_pos h]
    rw [List.length_eq_zero] at h
    simp [h]
  · rw [if_neg h]
    have hne : df ≠ [] := fun he => h (by rw [he]; rfl)
    simp only [Except.ok.injEq, Prod.mk.injEq]
    constructor
    · rintro ⟨h1, h2⟩; exact ⟨hne, h1.symm, h2.symm⟩
    · rintro ⟨-, h1, h2⟩; exact ⟨h1.symm, h2.symm⟩

theorem analyze_congestion_zone_table (df : List TripRecord) :
    (analyze_congestion_zone df).table = zoneFlagged df := by
  unfold analyze_congestion_zone
  split <;> rfl

/-! ## Claim theorems -/

/-- C1 counterexample: on the empty trip table (well-formed, zero rows)
the classifier does not return any pair of tables at all — the progress
print's `len(ghost_df) / len(df)` raises — so the partition property
fails for that input. -/
theorem C1_counterexample :
    ¬ ∃ p : List TripRecord × List TripRecord,
        detect_ghost_trips [] = Except.ok p := by
  rintro ⟨p, hp⟩
  exact nomatch hp

/-- C1 (amended to non-empty inputs): for every non-empty trip table the
classifier returns exactly two tables `(clean, ghost)`; their union as a
set of records is the input, their intersection is empty, every input
record appears in exactly one of them (with multiplicity), and a record
matching the rules appears in the ghost table exactly as often as in the
input (in particular once if it occurs once). -/
theorem C1_partition (df : List TripRecord) (h : df ≠ []) :
    ∃ c g, detect_ghost_trips df = Except.ok (c, g) ∧
      (∀ r : TripRecord, r ∈ df ↔ r ∈ c ∨ r ∈ g) ∧
      (∀ r : TripRecord, ¬(r ∈ c ∧ r ∈ g)) ∧
      (∀ r : TripRecord, c.count r + g.count r = df.count r) ∧
      (∀ r : TripRecord, ghost_mask r = true → g.count r = df.count r) := by
  refine ⟨df.filter (fun r => !ghost_mask r), df.filter ghost_mask,
    detect_ghost_trips_eq_ok.mpr ⟨h, rfl, rfl⟩, ?_, ?_, ?_, ?_⟩
  · intro r
    constructor
    · intro hr
      by_cases hm : ghost_mask r
      · exact Or.inr (List.mem_filter.mpr ⟨hr, hm⟩)
      · exact Or.inl (List.mem_filter.mpr ⟨hr, by simp [hm]⟩)
    · rintro (hr | hr) <;> exact (List.mem_filter.mp hr).1
  · rintro r ⟨hc, hg⟩
    have h1 := (List.mem_filter.mp hc).2
    have h2 := (List.mem_filter.mp hg).2
    rw [h2] at h1
    exact absurd h1 (by simp)
  · intro r
    by_cases hm : ghost_mask r = true
    · have hg : (df.filter ghost_mask).count r = df.count r := List.count_filter hm
      have hc : (df.filter (fun r => !ghost_mask r)).count r = 0 :=
        List.count_eq_zero.mpr fun hmem => by
          have h2 := (List.mem_filter.mp hmem).2
          rw [hm] at h2
          exact absurd h2 (by simp)
      omega
    · have hm' : (!ghost_mask r) = true := by simp [hm]
      have hc : (df.filter (fun r => !ghost_mask r)).count r = df.count r :=
        List.count_filter hm'
      have hg : (df.filter ghost_mask).count r = 0 :=
        List.count_eq_zero.mpr fun hmem => absurd (List.mem_filter.mp hmem).2 hm
      omega
  · intro r hm
    exact List.count_filter hm

/-- Witness for `C1_partition` at the spec's four-record example
table. -/
theorem C1_partition_witness :
    exTable ≠ [] ∧
    ∃ c g, detect_ghost_trips exTable = Except.ok (c, g) ∧
      (∀ r : TripRecord, r ∈ exTable ↔ r ∈ c ∨ r ∈ g) ∧
      (∀ r : TripRecord, ¬(r ∈ c ∧ r ∈ g)) ∧
      (∀ r : TripRecord, c.count r + g.count r = exTable.count r) ∧
      (∀ r : TripRecord, ghost_mask r = true → g.count r = exTable.count r) :=
  ⟨by decide, C1_partition exTable (by decide)⟩

/-- C9: evaluation of the classifier at the failing input.  The empty
table is well-formed (all required columns present, zero rows), yet
`detect_ghost_trips` raises `ZeroDivisionError` from the
`len(ghost_df) / len(df)` progress print instead of completing. -/
theorem C9_empty_table_raises :
    detect_ghost_trips [] = Except.error "ZeroDivisionError: division by zero" :=
  rfl

/-- C3 counterexample: the zone list does not hold 64 identifiers. -/
theorem C3_counterexample : CONGESTION_ZONE_IDS.dedup.length ≠ 64 := by decide

/-- C3 (amended): the Zone Set used for `pickup_in_zone` /
`dropoff_in_zone` membership is a fixed set of exactly 67 distinct
integer zone identifiers, and membership is exactly list containment in
it. -/
theorem C3_zone_set :
    CONGESTION_ZONE_IDS.Nodup ∧ CONGESTION_ZONE_IDS.length = 67 ∧
      ∀ v : Int, inZone (some v) = CONGESTION_ZONE_IDS.contains v :=
  ⟨by decide, by decide, fun _ => rfl⟩

/-- C8 counterexample: on a one-record table matching rule 1 the clean
output is empty, and re-running the classifier on that clean output does
not yield an empty ghost table — it does not yield any table, since the
classifier raises on empty input. -/
theorem C8_counterexample :
    detect_ghost_trips [mkRec 70 10 15 5] =
      Except.ok ([], [mkRec 70 10 15 5]) ∧
    ¬ ∃ p : List TripRecord × List TripRecord,
        detect_ghost_trips [] = Except.ok p := by
  refine ⟨rfl, ?_⟩
  rintro ⟨p, hp⟩
  exact nomatch hp

/-- C8 (amended): whenever the classifier succeeds and its clean output
is non-empty, re-running it on the clean output succeeds with an empty
ghost table (and returns the clean table unchanged). -/
theorem C8_idempotent (df c g : List TripRecord)
    (h : detect_ghost_trips df = Except.ok (c, g)) (hc : c ≠ []) :
    detect_ghost_trips c = Except.ok (c, []) := by
  obtain ⟨-, hcl, -⟩ := detect_ghost_trips_eq_ok.mp h
  have hmask : ∀ r ∈ c, ghost_mask r = false := by
    intro r hr
    rw [hcl] at hr
    have h2 := (List.mem_filter.mp hr).2
    simpa using h2
  refine detect_ghost_trips_eq_ok.mpr ⟨hc, ?_, ?_⟩
  · symm
    rw [List.filter_eq_self]
    intro r hr
    simp [hmask r hr]
  · symm
    rw [List.filter_eq_nil_iff]
    intro r hr
    simp [hmask r hr]

/-- Witness for `C8_idempotent`: on the example table the clean output
is `exClean`, and re-classifying it returns `(exClean, [])`. -/
theorem C8_idempotent_witness :
    detect_ghost_trips exClean = Except.ok (exClean, []) :=
  C8_idempotent exTable exClean exGhost rfl (by decide)

/-- C2: a record of the input is placed in the ghost table iff at least
one of the three rule predicates holds (speed > 65, or duration < 1 and
fare > 20, or distance == 0 and fare > 0), and in the clean table iff
none does; a null (NaN) value makes each comparison false, so null rule
columns never match a rule. -/
theorem C2_rule_disjunction (df c g : List TripRecord)
    (h : detect_ghost_trips df = Except.ok (c, g))
    (r : TripRecord) (hr : r ∈ df) :
    (r ∈ g ↔ (r.avg_speed.gtc 65 = true ∨
        (r.trip_duration.ltc 1 = true ∧ r.fare.gtc 20 = true) ∨
        (r.trip_distance.eqc 0 = true ∧ r.fare.gtc 0 = true))) ∧
    (r ∈ c ↔ ¬(r.avg_speed.gtc 65 = true ∨
        (r.trip_duration.ltc 1 = true ∧ r.fare.gtc 20 = true) ∨
        (r.trip_distance.eqc 0 = true ∧ r.fare.gtc 0 = true))) ∧
    Fl.nan.gtc 65 = false ∧ Fl.nan.ltc 1 = false ∧ Fl.nan.gtc 20 = false ∧
    Fl.nan.eqc 0 = false ∧ Fl.nan.gtc 0 = false := by
  obtain ⟨-, hcl, hgh⟩ := detect_ghost_trips_eq_ok.mp h
  subst hcl hgh
  refine ⟨?_, ?_, rfl, rfl, rfl, rfl, rfl⟩
  · rw [List.mem_filter]
    simp only [hr, true_and, ghost_mask, mask_speed, mask_teleport, mask_stationary,
      Bool.or_eq_true, Bool.and_eq_true]
    tauto
  · rw [List.mem_filter]
    simp only [hr, true_and, ghost_mask, mask_speed, mask_teleport, mask_stationary,
      Bool.not_eq_true', Bool.or_eq_false_iff, Bool.and_eq_false_iff,
      Bool.not_eq_true]
    constructor
    · rintro ⟨⟨h1, h2⟩, h3⟩
      rintro (ha | ⟨hb1, hb2⟩ | ⟨hc1, hc2⟩)
      · rw [h1] at ha; cases ha
      · rcases h2 with h2 | h2
        · rw [h2] at hb1; cases hb1
        · rw [h2] at hb2; cases hb2
      · rcases h3 with h3 | h3
        · rw [h3] at hc1; cases hc1
        · rw [h3] at hc2; cases hc2
    · intro hn
      refine ⟨⟨?_, ?_⟩, ?_⟩
      · cases h1 : r.avg_speed.gtc 65
        · rfl
        · exact absurd (Or.inl h1) hn
      · cases h1 : r.trip_duration.ltc 1
        · exact Or.inl rfl
        · cases h2 : r.fare.gtc 20
          · exact Or.inr rfl
          · exact absurd (Or.inr (Or.inl ⟨h1, h2⟩)) hn
      · cases h1 : r.trip_distance.eqc 0
        · exact Or.inl rfl
        · cases h2 : r.fare.gtc 0
          · exact Or.inr rfl
          · exact absurd (Or.inr (Or.inr ⟨h1, h2⟩)) hn

/-- Witness for `C2_rule_disjunction` at the example table and its
rule-1 record. -/
theorem C2_rule_disjunction_witness :
    ((mkRec 70 10 15 5) ∈ exGhost ↔ ((mkRec 70 10 15 5).avg_speed.gtc 65 = true ∨
        ((mkRec 70 10 15 5).trip_duration.ltc 1 = true ∧ (mkRec 70 10 15 5).fare.gtc 20 = true) ∨
        ((mkRec 70 10 15 5).trip_distance.eqc 0 = true ∧ (mkRec 70 10 15 5).fare.gtc 0 = true))) ∧
    ((mkRec 70 10 15 5) ∈ exClean ↔ ¬((mkRec 70 10 15 5).avg_speed.gtc 65 = true ∨
        ((mkRec 70 10 15 5).trip_duration.ltc 1 = true ∧ (mkRec 70 10 15 5).fare.gtc 20 = true) ∨
        ((mkRec 70 10 15 5).trip_distance.eqc 0 = true ∧ (mkRec 70 10 15 5).fare.gtc 0 = true))) ∧
    Fl.nan.gtc 65 = false ∧ Fl.nan.ltc 1 = false ∧ Fl.nan.gtc 20 = false ∧
    Fl.nan.eqc 0 = false ∧ Fl.nan.gtc 0 = false :=
  C2_rule_disjunction exTable exClean exGhost rfl (mkRec 70 10 15 5) (by decide)

/-- C10: the analyzer's output table is the very clean table it was
handed, augmented in place with the three boolean columns, and that
augmented table is what the driver persists as the clean output; every
pre-existing column of every record is unchanged, and the flag columns
are set by zone membership. -/
theorem C10_in_place_augmentation (df c g : List TripRecord)
    (h : detect_ghost_trips df = Except.ok (c, g)) :
    pipeline_main df = Except.ok ((analyze_congestion_zone c).table, g) ∧
    (analyze_congestion_zone c).table = c.map setZoneFlags ∧
    (analyze_congestion_zone c).table.length = c.length ∧
    ∀ r : TripRecord,
      (setZoneFlags r).pickup_time = r.pickup_time ∧
      (setZoneFlags r).pickup_loc = r.pickup_loc ∧
      (setZoneFlags r).dropoff_loc = r.dropoff_loc ∧
      (setZoneFlags r).trip_distance = r.trip_distance ∧
      (setZoneFlags r).fare = r.fare ∧
      (setZoneFlags r).congestion_surcharge = r.congestion_surcharge ∧
      (setZoneFlags r).trip_duration = r.trip_duration ∧
      (setZoneFlags r).avg_speed = r.avg_speed ∧
      (setZoneFlags r).pickup_in_zone = some (inZone r.pickup_loc) ∧
      (setZoneFlags r).dropoff_in_zone = some (inZone r.dropoff_loc) ∧
      (setZoneFlags r).enters_zone =
        some (!inZone r.pickup_loc && inZone r.dropoff_loc) := by
  refine ⟨?_, ?_, ?_, ?_⟩
  · unfold pipeline_main
    rw [h]
  · rw [analyze_congestion_zone_table]; rfl
  · rw [analyze_congestion_zone_table]
    exact List.length_map _ _
  · intro r
    refine ⟨rfl, rfl, rfl, rfl, rfl, rfl, rfl, rfl, rfl, rfl, rfl⟩

/-- Witness for `C10_in_place_augmentation`: the driver's persisted
clean table for the example input is the analyzer-augmented clean
table. -/
theorem C10_in_place_augmentation_witness :
    pipeline_main exTable =
      Except.ok ((analyze_congestion_zone exClean).table, exGhost) :=
  (C10_in_place_augmentation exTable exClean exGhost rfl).1

/-- C5: when the qualifying set (`zone_entries`) is empty the analyzer
reports the compliance rate as the no-data sentinel `none` (no division
happens and no failure is raised); when it is non-empty the rate is
`|compliant| / |qualifying|`, which lies in `[0, 1]`. -/
theorem C5_compliance_rate (df : List TripRecord) :
    (zone_entries df = [] → (analyze_congestion_zone df).compliance_rate = none) ∧
    (zone_entries df ≠ [] →
      (analyze_congestion_zone df).compliance_rate =
        some (((compliant df).length : ℚ) / ((zone_entries df).length : ℚ)) ∧
      ∀ q : ℚ, (analyze_congestion_zone df).compliance_rate = some q →
        0 ≤ q ∧ q ≤ 1) := by
  unfold analyze_congestion_zone
  by_cases h : 0 < (zone_entries df).length
  · rw [if_pos h]
    have hne : zone_entries df ≠ [] := by
      intro he
      rw [he] at h
      exact absurd h (by simp)
    refine ⟨fun he => absurd he hne, fun _ => ⟨rfl, ?_⟩⟩
    intro q hq
    simp only [Option.some.injEq] at hq
    rw [← hq]
    constructor
    · exact div_nonneg (Nat.cast_nonneg _) (Nat.cast_nonneg _)
    · rw [div_le_one (by exact_mod_cast h)]
      have hlen : (compliant df).length ≤ (zone_entries df).length :=
        List.length_filter_le _ _
      exact_mod_cast hlen
  · rw [if_neg h]
    have he : zone_entries df = [] := by
      cases hz : zone_entries df with
      | nil => rfl
      | cons a t => rw [hz] at h; exact absurd (by simp) h
    exact ⟨fun _ => rfl, fun hne => absurd he hne⟩

/-- Witness for `C5_compliance_rate`: the empty table has an empty
qualifying set and rate `none`; `tbl5` has a non-empty qualifying set,
so the rate is the quotient and lies in `[0, 1]`. -/
theorem C5_compliance_rate_witness :
    (analyze_congestion_zone []).compliance_rate = none ∧
    ((analyze_congestion_zone tbl5).compliance_rate =
        some (((compliant tbl5).length : ℚ) / ((zone_entries tbl5).length : ℚ)) ∧
      ∀ q : ℚ, (analyze_congestion_zone tbl5).compliance_rate = some q →
        0 ≤ q ∧ q ≤ 1) :=
  ⟨(C5_compliance_rate []).1 (by decide), (C5_compliance_rate tbl5).2 (by decide)⟩

/-- C6 counterexample: `tbl6` holds a single qualifying record whose
congestion surcharge is negative.  It is qualifying and not compliant,
so the claim places it in the leakage population; but the grouped
population (`non_compliant`, the `== 0` filter) is empty. -/
theorem C6_counterexample :
    zone_entries tbl6 = [setZoneFlags (qRec 10 (Fl.fval (-3)))] ∧
    compliant tbl6 = [] ∧
    non_compliant tbl6 = [] := by
  refine ⟨by decide, by decide, by decide⟩

/-- C6 (amended): the population grouped for the leakage ranking is
exactly the qualifying records whose congestion surcharge equals 0;
every such record is a non-compliant qualifying record, but qualifying
records with null or negative surcharge are excluded even though they
are not compliant either. -/
theorem C6_leakage_population (df : List TripRecord) :
    (∀ r : TripRecord,
      r ∈ non_compliant df ↔
        r ∈ zone_entries df ∧ r.congestion_surcharge.eqc 0 = true) ∧
    (∀ r : TripRecord, r ∈ non_compliant df →
      r ∈ zone_entries df ∧ ¬ r.congestion_surcharge.gtc 0 = true) := by
  constructor
  · intro r
    exact List.mem_filter
  · intro r hr
    obtain ⟨hz, he⟩ := List.mem_filter.mp hr
    refine ⟨hz, ?_⟩
    cases hs : r.congestion_surcharge with
    | nan => simp [Fl.gtc]
    | inf => rw [hs] at he; exact absurd he (by simp [Fl.eqc])
    | fval q =>
        rw [hs] at he
        simp only [Fl.eqc, decide_eq_true_eq] at he
        simp [Fl.gtc, he]

/-- Witness for `C6_leakage_population`: a zero-surcharge qualifying
record is in the grouped leakage population. -/
theorem C6_leakage_population_witness :
    setZoneFlags (qRec 10 (Fl.fval 0)) ∈ non_compliant [qRec 10 (Fl.fval 0)] :=
  ((C6_leakage_population [qRec 10 (Fl.fval 0)]).1
    (setZoneFlags (qRec 10 (Fl.fval 0)))).mpr ⟨by decide, by decide⟩

/-- C4: for every record the analyzer sets
`pickup_in_zone = pickup_loc ∈ Zone Set`,
`dropoff_in_zone = dropoff_loc ∈ Zone Set`, and
`enters_zone = (NOT pickup_in_zone) AND dropoff_in_zone`. -/
theorem C4_zone_flags (df : List TripRecord) (i : Nat) (hi : i < df.length)
    (hi' : i < ((analyze_congestion_zone df).table).length) :
    ((analyze_congestion_zone df).table.get ⟨i, hi'⟩).pickup_in_zone =
        some (inZone (df.get ⟨i, hi⟩).pickup_loc) ∧
    ((analyze_congestion_zone df).table.get ⟨i, hi'⟩).dropoff_in_zone =
        some (inZone (df.get ⟨i, hi⟩).dropoff_loc) ∧
    ((analyze_congestion_zone df).table.get ⟨i, hi'⟩).enters_zone =
        some (!inZone (df.get ⟨i, hi⟩).pickup_loc &&
              inZone (df.get ⟨i, hi⟩).dropoff_loc) := by
  have h2 : (analyze_congestion_zone df).table = df.map setZoneFlags :=
    analyze_congestion_zone_table df
  have hrec : (analyze_congestion_zone df).table.get ⟨i, hi'⟩ =
      setZoneFlags (df.get ⟨i, hi⟩) := by
    rw [List.get_eq_getElem, List.getElem_of_eq h2 hi', List.getElem_map,
      List.get_eq_getElem]
  rw [hrec]
  exact ⟨rfl, rfl, rfl⟩

/-- Witness for `C4_zone_flags`: a record with pickup location 100 and
dropoff location 4 (both in the Zone Set) gets `enters_zone = false`. -/
theorem C4_zone_flags_witness :
    ((analyze_congestion_zone [rec100_4]).table.get
        ⟨0, by decide⟩).enters_zone = some false := by
  have h := (C4_zone_flags [rec100_4] 0 (by decide) (by decide)).2.2
  exact h.trans (by decide)

/-! ## Helper lemmas for the leakage ranking -/

theorem pair_sublist_get {α : Type} {x y : α} :
    ∀ {l : List α}, List.Sublist [x, y] l →
      ∃ p q : Fin l.length, p < q ∧ l.get p = x ∧ l.get q = y := by
  intro l
  induction l with
  | nil => intro h; exact absurd h (by simp)
  | cons c t ih =>
    intro h
    cases h with
    | cons _ h' =>
        obtain ⟨p, q, hpq, hp, hq⟩ := ih h'
        refine ⟨p.succ, q.succ, ?_, ?_, ?_⟩
        · exact Fin.succ_lt_succ_iff.mpr hpq
        · simpa using hp
        · simpa using hq
    | cons₂ _ h' =>
        have hy : y ∈ t := List.singleton_sublist.mp h'
        obtain ⟨q, hq⟩ := List.get_of_mem hy
        refine ⟨⟨0, by simp⟩, q.succ, ?_, rfl, ?_⟩
        · simp [Fin.lt_def]
        · simpa using hq

theorem pair_sublist_of_key_lt {gs : List (Int × Nat)}
    (hgs : gs.Pairwise (fun a b => a.1 < b.1)) {x y : Int × Nat}
    (hx : x ∈ gs) (hy : y ∈ gs) (hxy : x.1 < y.1) : List.Sublist [x, y] gs := by
  induction gs with
  | nil => cases hx
  | cons c t ih =>
    obtain ⟨hc, ht⟩ := List.pairwise_cons.mp hgs
    rcases List.mem_cons.mp hx with rfl | hxt
    · rcases List.mem_cons.mp hy with rfl | hyt
      · exact absurd hxy (lt_irrefl _)
      · exact List.Sublist.cons₂ _ (List.singleton_sublist.mpr hyt)
    · rcases List.mem_cons.mp hy with rfl | hyt
      · exact absurd hxy (not_lt.mpr (le_of_lt (hc x hxt)))
      · exact List.Sublist.cons _ (ih ht hxt hyt)

theorem groupKeys_sorted_lt (rs : List TripRecord) :
    (groupKeys rs).Pairwise (fun a b : Int => a < b) := by
  have hs : (groupKeys rs).Pairwise (fun a b : Int => a ≤ b) := by
    unfold groupKeys
    exact List.sorted_insertionSort _ _
  have hnd : (groupKeys rs).Nodup := by
    unfold groupKeys
    have hperm := List.perm_insertionSort (fun a b : Int => a ≤ b)
      (rs.filterMap (fun r => r.pickup_loc)).dedup
    exact hperm.symm.nodup (List.nodup_dedup _)
  exact (hs.and hnd).imp fun h => lt_of_le_of_ne h.1 h.2

theorem groupSizes_pairwise_keys (rs : List TripRecord) :
    (groupSizes rs).Pairwise (fun a b : Int × Nat => a.1 < b.1) := by
  unfold groupSizes
  rw [List.pairwise_map]
  exact (groupKeys_sorted_lt rs).imp fun h => h

theorem nlargest3_sorted_lex (gs : List (Int × Nat))
    (hgs : gs.Pairwise (fun a b => a.1 < b.1)) :
    (nlargest3 gs).Pairwise
      (fun a b : Int × Nat => b.2 < a.2 ∨ (a.2 = b.2 ∧ a.1 < b.1)) := by
  have h1 : (List.insertionSort countGE gs).Pairwise countGE :=
    List.sorted_insertionSort countGE gs
  have hperm : List.Perm (List.insertionSort countGE gs) gs :=
    List.perm_insertionSort countGE gs
  have hne : (List.insertionSort countGE gs).Pairwise
      (fun a b : Int × Nat => a.1 ≠ b.1) :=
    (hperm.pairwise_iff fun h => Ne.symm h).mpr (hgs.imp fun h => ne_of_lt h)
  have hfull : (List.insertionSort countGE gs).Pairwise
      (fun a b : Int × Nat => b.2 < a.2 ∨ (a.2 = b.2 ∧ a.1 < b.1)) := by
    rw [List.pairwise_iff_get] at h1 hne ⊢
    intro i j hij
    have hab : ((List.insertionSort countGE gs).get j).2 ≤
        ((List.insertionSort countGE gs).get i).2 := h1 i j hij
    have hneq := hne i j hij
    by_cases hlt : ((List.insertionSort countGE gs).get j).2 <
        ((List.insertionSort countGE gs).get i).2
    · exact Or.inl hlt
    · have heq : ((List.insertionSort countGE gs).get i).2 =
          ((List.insertionSort countGE gs).get j).2 :=
        Nat.le_antisymm (Nat.le_of_not_lt hlt) hab
      refine Or.inr ⟨heq, ?_⟩
      rcases lt_trichotomy ((List.insertionSort countGE gs).get i).1
          ((List.insertionSort countGE gs).get j).1 with hk | hk | hk
      · exact hk
      · exact absurd hk hneq
      · exfalso
        have ha : (List.insertionSort countGE gs).get i ∈ gs :=
          hperm.mem_iff.mp (List.get_mem _ i.1 i.2)
        have hb : (List.insertionSort countGE gs).get j ∈ gs :=
          hperm.mem_iff.mp (List.get_mem _ j.1 j.2)
        have hsub : List.Sublist [(List.insertionSort countGE gs).get j,
            (List.insertionSort countGE gs).get i] gs :=
          pair_sublist_of_key_lt hgs hb ha hk
        have hr : countGE ((List.insertionSort countGE gs).get j)
            ((List.insertionSort countGE gs).get i) := le_of_eq heq
        have hsub2 := List.pair_sublist_insertionSort hr hsub
        obtain ⟨p, q, hpq, hp, hq⟩ := pair_sublist_get hsub2
        have keyinj : ∀ p q : Fin (List.insertionSort countGE gs).length,
            ((List.insertionSort countGE gs).get p).1 =
            ((List.insertionSort countGE gs).get q).1 → p = q := by
          intro p q hk'
          by_contra hne'
          rcases lt_or_gt_of_ne hne' with h | h
          · exact hne p q h hk'
          · exact hne q p h hk'.symm
        have hq_eq : q = i := keyinj q i (by rw [hq])
        have hp_eq : p = j := keyinj p j (by rw [hp])
        rw [hp_eq, hq_eq] at hpq
        exact absurd hpq (not_lt.mpr (le_of_lt hij))
  exact hfull.sublist (List.take_sublist 3 _)

theorem nlargest3_top (gs : List (Int × Nat)) {a b : Int × Nat}
    (ha : a ∈ nlargest3 gs) (hb : b ∈ gs) (hnb : b ∉ nlargest3 gs) :
    b.2 ≤ a.2 := by
  have h1 : (List.insertionSort countGE gs).Pairwise countGE :=
    List.sorted_insertionSort countGE gs
  have hperm : List.Perm (List.insertionSort countGE gs) gs :=
    List.perm_insertionSort countGE gs
  have hbfull : b ∈ List.insertionSort countGE gs := hperm.mem_iff.mpr hb
  have hsplit : b ∈ List.take 3 (List.insertionSort countGE gs) ∨
      b ∈ List.drop 3 (List.insertionSort countGE gs) := by
    rw [← List.mem_append, List.take_append_drop]
    exact hbfull
  rcases hsplit with h | h
  · exact absurd h hnb
  · exact List.Sorted.rel_of_mem_take_of_mem_drop h1 ha h

/-- C7: the leakage ranking holds at most three locations; it is ordered
by strictly descending non-compliant count with ties broken by ascending
location identifier (so it is deterministic); and every grouped location
left out of the ranking has a count no larger than any ranked one. -/
theorem C7_leakage_ranking (df : List TripRecord) :
    (top_leakage df).length ≤ 3 ∧
    (top_leakage df).Pairwise
      (fun a b : Int × Nat => b.2 < a.2 ∨ (a.2 = b.2 ∧ a.1 < b.1)) ∧
    ∀ a b : Int × Nat, a ∈ top_leakage df →
      b ∈ groupSizes (non_compliant df) → b ∉ top_leakage df → b.2 ≤ a.2 := by
  unfold top_leakage
  split
  · refine ⟨?_, ?_, ?_⟩
    · unfold nlargest3
      exact List.length_take_le _ _
    · exact nlargest3_sorted_lex _ (groupSizes_pairwise_keys _)
    · intro a b ha hb hnb
      exact nlargest3_top _ ha hb hnb
  · refine ⟨by simp, by simp, ?_⟩
    intro a b ha hb hnb
    exact absurd ha (by simp)

/-- Witness for `C7_leakage_ranking` at `tbl7` (location 10 has count 2;
locations 20, 30, 40 are tied with count 1, and 40 is left out). -/
theorem C7_leakage_ranking_witness :
    (top_leakage tbl7).length ≤ 3 ∧
    ((40 : Int), (1 : Nat)).2 ≤ ((10 : Int), (2 : Nat)).2 :=
  ⟨(C7_leakage_ranking tbl7).1,
   (C7_leakage_ranking tbl7).2.2 (10, 2) (40, 1) (by decide) (by decide)
     (by decide)⟩
